import Mathlib

/-!
Verification of the real-time drowsiness detection pipeline
(`DrowsinessDetector_Universal.py`): the per-frame debounce/integration
state machine, the Telegram alert throttler, and the bounded frame queue.
All machine state carried by the Python objects is embedded as explicit
Lean structures; durations are exact rationals (the source uses `1/30`
and `0.1` literals).
-/

namespace Drowsiness

/-! ## Detector state (fields of `DrowsinessDetector.__init__`) -/

/-- The mutable drowsiness-related fields of `DrowsinessDetector`:
classification strings (`yawn_state`, `left_eye_state`, `right_eye_state`),
counters (`blinks`, `microsleeps`, `yawns`, `yawn_duration`) and the
debounce latches (`left_eye_still_closed`, `right_eye_still_closed`,
`yawn_in_progress`). -/
structure DetectorState where
  yawn_state : String
  left_eye_state : String
  right_eye_state : String
  blinks : ℕ
  microsleeps : ℚ
  yawns : ℕ
  yawn_duration : ℚ
  left_eye_still_closed : Bool
  right_eye_still_closed : Bool
  yawn_in_progress : Bool
  deriving Repr, DecidableEq

/-- Initial detector state, as set in `DrowsinessDetector.__init__`:
empty classification strings, zero counters, cleared latches. -/
def initState : DetectorState :=
  { yawn_state := ""
    left_eye_state := ""
    right_eye_state := ""
    blinks := 0
    microsleeps := 0
    yawns := 0
    yawn_duration := 0
    left_eye_still_closed := false
    right_eye_still_closed := false
    yawn_in_progress := false }

/-! ## The per-frame drowsiness logic of `process_frames`

The block guarded by `if len(points) == 7:` after the three predictions,
lines 571-593 of the source:

    if self.left_eye_state == "Close Eye" and self.right_eye_state == "Close Eye":
        if not self.left_eye_still_closed and not self.right_eye_still_closed:
            self.left_eye_still_closed, self.right_eye_still_closed = True, True
            self.blinks += 1
        self.microsleeps += 1/30
    else:
        if self.left_eye_still_closed and self.right_eye_still_closed:
            self.left_eye_still_closed, self.right_eye_still_closed = False, False
        self.microsleeps = max(0, self.microsleeps - 0.1)

    if self.yawn_state == "Yawn":
        if not self.yawn_in_progress:
            self.yawn_in_progress = True
            self.yawns += 1
        self.yawn_duration += 1/30
    else:
        if self.yawn_in_progress:
            self.yawn_in_progress = False
            self.yawn_duration = 0
-/

/-- The eye-closure half of the drowsiness logic. -/
def eyeLogic (s : DetectorState) : DetectorState :=
  if s.left_eye_state = "Close Eye" ∧ s.right_eye_state = "Close Eye" then
    let s' :=
      if ¬s.left_eye_still_closed ∧ ¬s.right_eye_still_closed then
        { s with left_eye_still_closed := true
                 right_eye_still_closed := true
                 blinks := s.blinks + 1 }
      else s
    { s' with microsleeps := s'.microsleeps + 1/30 }
  else
    let s' :=
      if s.left_eye_still_closed ∧ s.right_eye_still_closed then
        { s with left_eye_still_closed := false
                 right_eye_still_closed := false }
      else s
    { s' with microsleeps := max 0 (s'.microsleeps - 1/10) }

/-- The yawn half of the drowsiness logic. -/
def yawnLogic (s : DetectorState) : DetectorState :=
  if s.yawn_state = "Yawn" then
    let s' :=
      if ¬s.yawn_in_progress then
        { s with yawn_in_progress := true, yawns := s.yawns + 1 }
      else s
    { s' with yawn_duration := s'.yawn_duration + 1/30 }
  else
    if s.yawn_in_progress then
      { s with yawn_in_progress := false, yawn_duration := 0 }
    else s

/-- One execution of the drowsiness logic block: eye-closure half then
yawn half, in source order. -/
def drowsinessStep (s : DetectorState) : DetectorState :=
  yawnLogic (eyeLogic s)

/-! ## Driving the machine with boolean per-frame classifications

The classification strings are written by `predict_eye` / `predict_yawn`
just before the drowsiness logic runs.  To state sequence properties over
boolean inputs we set the strings from a boolean and step. -/

/-- Set the two eye classification strings from a both-eyes-closed
boolean: `true` yields the source's `"Close Eye"` for both eyes, `false`
yields `"Open Eye"` for both. -/
def setEyes (b : Bool) (s : DetectorState) : DetectorState :=
  { s with left_eye_state := if b then "Close Eye" else "Open Eye"
           right_eye_state := if b then "Close Eye" else "Open Eye" }

/-- Set the yawn classification string from a boolean: `true` yields the
source's `"Yawn"`, `false` yields `"No Yawn"`. -/
def setYawn (b : Bool) (s : DetectorState) : DetectorState :=
  { s with yawn_state := if b then "Yawn" else "No Yawn" }

/-- Process a sequence of per-frame both-eyes-closed booleans. -/
def runEyes (s : DetectorState) (bs : List Bool) : DetectorState :=
  bs.foldl (fun t b => drowsinessStep (setEyes b t)) s

/-- Process a sequence of per-frame yawning booleans. -/
def runYawns (s : DetectorState) (bs : List Bool) : DetectorState :=
  bs.foldl (fun t b => drowsinessStep (setYawn b t)) s

/-- Number of maximal runs of `true` in a boolean sequence, tracking the
value of the previous element (`prev`): a run starts at each `true` whose
predecessor is `false` (or that opens the sequence). -/
def countRunsAux : Bool → List Bool → ℕ
  | _, [] => 0
  | prev, b :: bs => (if b ∧ ¬prev then 1 else 0) + countRunsAux b bs

/-- Number of maximal runs of consecutive `true` values. -/
def countTrueRuns (bs : List Bool) : ℕ := countRunsAux false bs

/-! ## Projection lemmas for the two halves of the step -/

lemma yawnLogic_blinks (s : DetectorState) : (yawnLogic s).blinks = s.blinks := by
  unfold yawnLogic
  split <;> split <;> rfl

lemma yawnLogic_microsleeps (s : DetectorState) :
    (yawnLogic s).microsleeps = s.microsleeps := by
  unfold yawnLogic
  split <;> split <;> rfl

lemma yawnLogic_left_latch (s : DetectorState) :
    (yawnLogic s).left_eye_still_closed = s.left_eye_still_closed := by
  unfold yawnLogic
  split <;> split <;> rfl

lemma yawnLogic_right_latch (s : DetectorState) :
    (yawnLogic s).right_eye_still_closed = s.right_eye_still_closed := by
  unfold yawnLogic
  split <;> split <;> rfl

lemma eyeLogic_yawns (s : DetectorState) : (eyeLogic s).yawns = s.yawns := by
  unfold eyeLogic
  split <;> split <;> rfl

lemma eyeLogic_yawn_duration (s : DetectorState) :
    (eyeLogic s).yawn_duration = s.yawn_duration := by
  unfold eyeLogic
  split <;> split <;> rfl

lemma eyeLogic_yawn_in_progress (s : DetectorState) :
    (eyeLogic s).yawn_in_progress = s.yawn_in_progress := by
  unfold eyeLogic
  split <;> split <;> rfl

lemma eyeLogic_yawn_state (s : DetectorState) :
    (eyeLogic s).yawn_state = s.yawn_state := by
  unfold eyeLogic
  split <;> split <;> rfl

lemma eyeLogic_microsleeps (s : DetectorState) :
    (eyeLogic s).microsleeps =
      if s.left_eye_state = "Close Eye" ∧ s.right_eye_state = "Close Eye" then
        s.microsleeps + 1/30
      else max 0 (s.microsleeps - 1/10) := by
  unfold eyeLogic
  split <;> split <;> rfl

/-! ## Step characterizations driven by booleans -/

lemma eyeStep_blinks (s : DetectorState) (b : Bool) :
    (drowsinessStep (setEyes b s)).blinks =
      s.blinks +
        (if b = true ∧ s.left_eye_still_closed = false ∧
            s.right_eye_still_closed = false then 1 else 0) := by
  unfold drowsinessStep
  rw [yawnLogic_blinks]
  unfold eyeLogic setEyes
  cases b <;>
    cases hl : s.left_eye_still_closed <;>
      cases hr : s.right_eye_still_closed <;> simp

lemma eyeStep_latches (s : DetectorState) (b : Bool)
    (h : s.left_eye_still_closed = s.right_eye_still_closed) :
    (drowsinessStep (setEyes b s)).left_eye_still_closed = b ∧
    (drowsinessStep (setEyes b s)).right_eye_still_closed = b := by
  unfold drowsinessStep
  rw [yawnLogic_left_latch, yawnLogic_right_latch]
  unfold eyeLogic setEyes
  cases b <;>
    cases hl : s.left_eye_still_closed <;>
      cases hr : s.right_eye_still_closed <;>
        simp_all

lemma runEyes_nil (s : DetectorState) : runEyes s [] = s := rfl

lemma runEyes_cons (s : DetectorState) (b : Bool) (bs : List Bool) :
    runEyes s (b :: bs) = runEyes (drowsinessStep (setEyes b s)) bs := rfl

lemma runEyes_blinks (bs : List Bool) :
    ∀ (s : DetectorState) (p : Bool), s.left_eye_still_closed = p →
      s.right_eye_still_closed = p →
      (runEyes s bs).blinks = s.blinks + countRunsAux p bs := by
  induction bs with
  | nil => intro s p _ _; rfl
  | cons b bs ih =>
    intro s p hl hr
    rw [runEyes_cons, countRunsAux]
    have hlat := eyeStep_latches s b (by rw [hl, hr])
    rw [ih (drowsinessStep (setEyes b s)) b hlat.1 hlat.2, eyeStep_blinks]
    cases b <;> cases p <;> (simp_all; try omega)

/-- C1: starting from the initial state (latches false, `blinks = 0`),
processing any finite sequence of per-frame both-eyes-closed booleans
leaves `blinks` equal to the number of maximal runs of consecutive `true`
values; and at every state, a step increments `blinks` exactly when the
frame reports both eyes closed and neither eye latch is set (not-latched
to latched transition), never on a later frame of the same run. -/
theorem blink_count_counts_maximal_runs :
    (∀ bs : List Bool, (runEyes initState bs).blinks = countTrueRuns bs) ∧
    (∀ (s : DetectorState) (b : Bool),
      (drowsinessStep (setEyes b s)).blinks =
        s.blinks +
          (if b = true ∧ s.left_eye_still_closed = false ∧
              s.right_eye_still_closed = false then 1 else 0)) := by
  constructor
  · intro bs
    have h := runEyes_blinks bs initState false rfl rfl
    simpa [countTrueRuns, initState] using h
  · exact eyeStep_blinks

/-- C3: provided the accumulator is currently non-negative, after a
drowsiness step `microsleeps` (the continuous-closure accumulator) remains
non-negative; and on a frame whose classifications are not both
`"Close Eye"`, it becomes `max 0 (microsleeps - 0.1)`, hence never
increases. -/
theorem microsleeps_nonneg_and_open_decay (s : DetectorState)
    (h : 0 ≤ s.microsleeps) :
    0 ≤ (drowsinessStep s).microsleeps ∧
    (¬(s.left_eye_state = "Close Eye" ∧ s.right_eye_state = "Close Eye") →
      (drowsinessStep s).microsleeps = max 0 (s.microsleeps - 1/10) ∧
      (drowsinessStep s).microsleeps ≤ s.microsleeps) := by
  have hm : (drowsinessStep s).microsleeps = (eyeLogic s).microsleeps := by
    unfold drowsinessStep; rw [yawnLogic_microsleeps]
  rw [hm, eyeLogic_microsleeps]
  constructor
  · split
    · linarith
    · exact le_max_left 0 _
  · intro hopen
    rw [if_neg hopen]
    exact ⟨rfl, by rw [max_le_iff]; constructor <;> linarith⟩

/-- Witness for C3 at a concrete state: open-eyed frame with
`microsleeps = 1`. -/
theorem microsleeps_nonneg_and_open_decay_witness :
    0 ≤ ({ initState with microsleeps := 1 } : DetectorState).microsleeps ∧
    (0 ≤ (drowsinessStep { initState with microsleeps := 1 }).microsleeps ∧
    (¬(({ initState with microsleeps := 1 } :
          DetectorState).left_eye_state = "Close Eye" ∧
        ({ initState with microsleeps := 1 } :
          DetectorState).right_eye_state = "Close Eye") →
      (drowsinessStep { initState with microsleeps := 1 }).microsleeps =
        max 0 (({ initState with microsleeps := 1 } :
          DetectorState).microsleeps - 1/10) ∧
      (drowsinessStep { initState with microsleeps := 1 }).microsleeps ≤
        ({ initState with microsleeps := 1 } : DetectorState).microsleeps)) :=
  ⟨by norm_num [initState],
   microsleeps_nonneg_and_open_decay { initState with microsleeps := 1 }
     (by norm_num [initState])⟩

/-! ## Yawn sub-machine characterization -/

lemma yawnStep_true (s : DetectorState) :
    (drowsinessStep (setYawn true s)).yawns =
      s.yawns + (if s.yawn_in_progress = false then 1 else 0) ∧
    (drowsinessStep (setYawn true s)).yawn_duration = s.yawn_duration + 1/30 ∧
    (drowsinessStep (setYawn true s)).yawn_in_progress = true := by
  unfold drowsinessStep
  have h1 := eyeLogic_yawns (setYawn true s)
  have h2 := eyeLogic_yawn_duration (setYawn true s)
  have h3 := eyeLogic_yawn_in_progress (setYawn true s)
  have h4 := eyeLogic_yawn_state (setYawn true s)
  unfold yawnLogic
  rw [h4]
  cases hy : s.yawn_in_progress <;> simp_all [setYawn]

lemma yawnStep_false (s : DetectorState) :
    (drowsinessStep (setYawn false s)).yawns = s.yawns ∧
    (drowsinessStep (setYawn false s)).yawn_duration =
      (if s.yawn_in_progress = true then 0 else s.yawn_duration) ∧
    (drowsinessStep (setYawn false s)).yawn_in_progress = false := by
  unfold drowsinessStep
  have h1 := eyeLogic_yawns (setYawn false s)
  have h2 := eyeLogic_yawn_duration (setYawn false s)
  have h3 := eyeLogic_yawn_in_progress (setYawn false s)
  have h4 := eyeLogic_yawn_state (setYawn false s)
  unfold yawnLogic
  rw [h4]
  cases hy : s.yawn_in_progress <;> simp_all [setYawn]

lemma runYawns_nil (s : DetectorState) : runYawns s [] = s := rfl

lemma runYawns_cons (s : DetectorState) (b : Bool) (bs : List Bool) :
    runYawns s (b :: bs) = runYawns (drowsinessStep (setYawn b s)) bs := rfl

lemma runYawns_append (s : DetectorState) (bs cs : List Bool) :
    runYawns s (bs ++ cs) = runYawns (runYawns s bs) cs :=
  List.foldl_append _ _ _ _

/-- While the yawn latch is set, further yawning frames only accumulate
duration: no new `yawns` increment, latch stays set. -/
lemma runYawns_latched (k : ℕ) :
    ∀ s : DetectorState, s.yawn_in_progress = true →
      (runYawns s (List.replicate k true)).yawns = s.yawns ∧
      (runYawns s (List.replicate k true)).yawn_duration =
        s.yawn_duration + k * (1/30) ∧
      (runYawns s (List.replicate k true)).yawn_in_progress = true := by
  induction k with
  | zero => intro s hs; simp [runYawns_nil, hs]
  | succ k ih =>
    intro s hs
    rw [List.replicate_succ, runYawns_cons]
    obtain ⟨h1, h2, h3⟩ := yawnStep_true s
    obtain ⟨g1, g2, g3⟩ := ih (drowsinessStep (setYawn true s)) h3
    refine ⟨by rw [g1, h1, hs]; simp, ?_, g3⟩
    rw [g2, h2]
    push_cast
    ring

/-- C4: from a state with no yawn in progress and zero yawn duration,
`N ≥ 1` consecutive yawning frames followed by one non-yawning frame
increase `yawns` by exactly one over the episode, the yawning frames
accumulate `yawn_duration` to `N * (1/30)`, and the first non-yawning
frame resets `yawn_duration` to exactly 0. -/
theorem yawn_episode (s : DetectorState) (n : ℕ)
    (h1 : s.yawn_in_progress = false) (h2 : s.yawn_duration = 0)
    (h3 : 1 ≤ n) :
    (runYawns s (List.replicate n true)).yawns = s.yawns + 1 ∧
    (runYawns s (List.replicate n true)).yawn_duration = n * (1/30) ∧
    (runYawns s (List.replicate n true ++ [false])).yawns = s.yawns + 1 ∧
    (runYawns s (List.replicate n true ++ [false])).yawn_duration = 0 := by
  obtain ⟨m, rfl⟩ : ∃ m, n = m + 1 := ⟨n - 1, by omega⟩
  rw [List.replicate_succ, runYawns_cons]
  obtain ⟨e1, e2, e3⟩ := yawnStep_true s
  obtain ⟨g1, g2, g3⟩ := runYawns_latched m (drowsinessStep (setYawn true s)) e3
  have hy : (runYawns (drowsinessStep (setYawn true s))
      (List.replicate m true)).yawns = s.yawns + 1 := by
    rw [g1, e1, h1]; simp
  have hd : (runYawns (drowsinessStep (setYawn true s))
      (List.replicate m true)).yawn_duration = (m + 1 : ℕ) * (1/30) := by
    rw [g2, e2, h2]
    push_cast
    ring
  obtain ⟨f1, f2, f3⟩ := yawnStep_false
    (runYawns (drowsinessStep (setYawn true s)) (List.replicate m true))
  refine ⟨hy, hd, ?_, ?_⟩
  · rw [List.cons_append, runYawns_cons, runYawns_append, runYawns_cons,
      runYawns_nil, f1, hy]
  · rw [List.cons_append, runYawns_cons, runYawns_append, runYawns_cons,
      runYawns_nil, f2, if_pos g3]

/-- Witness for C4: the initial state, an episode of two yawning frames
then one non-yawning frame. -/
theorem yawn_episode_witness :
    initState.yawn_in_progress = false ∧ initState.yawn_duration = 0 ∧
    (1 : ℕ) ≤ 2 ∧
    ((runYawns initState (List.replicate 2 true)).yawns =
        initState.yawns + 1 ∧
      (runYawns initState (List.replicate 2 true)).yawn_duration =
        (2 : ℕ) * (1/30) ∧
      (runYawns initState (List.replicate 2 true ++ [false])).yawns =
        initState.yawns + 1 ∧
      (runYawns initState
          (List.replicate 2 true ++ [false])).yawn_duration = 0) :=
  ⟨rfl, rfl, by norm_num,
    yawn_episode initState 2 rfl rfl (by norm_num)⟩

/-! ## TelegramBot: alert fan-out and rate limiting

Embeds `TelegramBot.__init__`, `send_message`,
`reset_alert_counter_if_needed` and `send_emergency_alert`.  Recipients
(`chat_ids`) are naturals; per-recipient HTTP delivery success is an
oracle `delivery : ℕ → Bool` (a `requests.post` returning status 200).
Wall-clock `time.time()` values are rationals supplied at each call. -/

/-- The alert-limiting state of `TelegramBot`. -/
structure TelegramBot where
  chat_ids : List ℕ
  enabled : Bool
  max_alerts : ℕ
  alert_count : ℕ
  last_reset_time : ℚ
  reset_interval : ℚ
  deriving Repr, DecidableEq

/-- `TelegramBot.__init__` with a token, a recipient list and the default
`max_alerts = 5`: `enabled = bool(bot_token and chat_ids)` (modelled with
the token present, so enabled iff some recipient), `alert_count = 0`,
`last_reset_time = time.time()` (the construction instant `t0`),
`reset_interval = 300`. -/
def mkBot (cs : List ℕ) (t0 : ℚ) : TelegramBot :=
  { chat_ids := cs
    enabled := decide (cs ≠ [])
    max_alerts := 5
    alert_count := 0
    last_reset_time := t0
    reset_interval := 300 }

/-- `TelegramBot.send_message`: if not enabled return `False`; otherwise
attempt delivery to every chat id, counting successes, and return
`success_count > 0`. -/
def send_message (bot : TelegramBot) (delivery : ℕ → Bool) : Bool :=
  if bot.enabled = false then false
  else
    decide
      (0 < bot.chat_ids.foldl (fun n c => if delivery c then n + 1 else n) 0)

/-- `TelegramBot.reset_alert_counter_if_needed`: when
`current_time - last_reset_time > reset_interval`, zero `alert_count` and
move `last_reset_time` to `current_time`. -/
def reset_alert_counter_if_needed (bot : TelegramBot) (now : ℚ) :
    TelegramBot :=
  if bot.reset_interval < now - bot.last_reset_time then
    { bot with alert_count := 0, last_reset_time := now }
  else bot

/-- Outcome of an emergency-alert call, distinguishing the source's two
`return False` paths: `rateLimited` (early return before any network
contact) and `failed` (fan-out attempted, every recipient failed). -/
inductive AlertOutcome
  | sent
  | rateLimited
  | failed
  deriving Repr, DecidableEq

/-- `TelegramBot.send_emergency_alert`: reset the window counter if
needed; if `alert_count >= max_alerts`, return without contacting any
recipient; otherwise fan out via `send_message`, and on success increment
`alert_count`.  Besides the updated bot and the outcome, the result
records the list of recipients actually contacted on this call (empty on
the rate-limited path; `send_message` loops over every chat id when
enabled). -/
def send_emergency_alert (bot : TelegramBot) (now : ℚ)
    (delivery : ℕ → Bool) : TelegramBot × AlertOutcome × List ℕ :=
  let b := reset_alert_counter_if_needed bot now
  if b.max_alerts ≤ b.alert_count then (b, .rateLimited, [])
  else
    let contacted := if b.enabled then b.chat_ids else []
    if send_message b delivery then
      ({ b with alert_count := b.alert_count + 1 }, .sent, contacted)
    else (b, .failed, contacted)

/-- Run a sequence of emergency-alert calls at the given times, returning
the final bot state and, per call, its outcome and contacted recipients. -/
def runAlerts (delivery : ℕ → Bool) :
    TelegramBot → List ℚ → TelegramBot × List (AlertOutcome × List ℕ)
  | bot, [] => (bot, [])
  | bot, t :: ts =>
    let r := send_emergency_alert bot t delivery
    let rest := runAlerts delivery r.1 ts
    (rest.1, (r.2.1, r.2.2) :: rest.2)

/-! ## Throttler lemmas -/

lemma reset_chat_ids (bot : TelegramBot) (now : ℚ) :
    (reset_alert_counter_if_needed bot now).chat_ids = bot.chat_ids := by
  unfold reset_alert_counter_if_needed; split <;> rfl

lemma reset_enabled (bot : TelegramBot) (now : ℚ) :
    (reset_alert_counter_if_needed bot now).enabled = bot.enabled := by
  unfold reset_alert_counter_if_needed; split <;> rfl

lemma reset_max_alerts (bot : TelegramBot) (now : ℚ) :
    (reset_alert_counter_if_needed bot now).max_alerts = bot.max_alerts := by
  unfold reset_alert_counter_if_needed; split <;> rfl

lemma reset_noop (bot : TelegramBot) (now : ℚ)
    (h : now - bot.last_reset_time ≤ bot.reset_interval) :
    reset_alert_counter_if_needed bot now = bot :=
  if_neg (not_lt.mpr h)

lemma foldl_count (delivery : ℕ → Bool) (l : List ℕ) :
    ∀ n : ℕ,
      l.foldl (fun n c => if delivery c then n + 1 else n) n =
        n + l.countP (fun c => delivery c) := by
  induction l with
  | nil => intro n; simp
  | cons c l ih =>
    intro n
    by_cases h : delivery c = true <;>
      (simp [List.foldl_cons, h, List.countP_cons, ih]; try omega)

lemma send_message_iff (bot : TelegramBot) (delivery : ℕ → Bool)
    (hen : bot.enabled = true) :
    send_message bot delivery = true ↔
      ∃ c ∈ bot.chat_ids, delivery c = true := by
  unfold send_message
  rw [hen]
  simp [foldl_count, List.countP_pos_iff]

lemma alert_step_in_window (bot : TelegramBot) (t : ℚ)
    (delivery : ℕ → Bool)
    (hreset : t - bot.last_reset_time ≤ bot.reset_interval)
    (hcount : bot.alert_count < bot.max_alerts)
    (hen : bot.enabled = true)
    (hsucc : ∀ c ∈ bot.chat_ids, delivery c = true)
    (hne : bot.chat_ids ≠ []) :
    send_emergency_alert bot t delivery =
      ({ bot with alert_count := bot.alert_count + 1 },
        AlertOutcome.sent, bot.chat_ids) := by
  unfold send_emergency_alert
  rw [reset_noop bot t hreset, if_neg (not_le.mpr hcount), if_pos hen]
  rw [if_pos ((send_message_iff bot delivery hen).mpr ?_)]
  obtain ⟨c, hc⟩ := List.exists_mem_of_ne_nil _ hne
  exact ⟨c, hc, hsucc c hc⟩

lemma alert_step_limited (bot : TelegramBot) (t : ℚ) (delivery : ℕ → Bool)
    (hreset : t - bot.last_reset_time ≤ bot.reset_interval)
    (hcount : bot.max_alerts ≤ bot.alert_count) :
    send_emergency_alert bot t delivery = (bot, AlertOutcome.rateLimited, []) := by
  unfold send_emergency_alert
  rw [reset_noop bot t hreset, if_pos hcount]

lemma runAlerts_cons (delivery : ℕ → Bool) (bot : TelegramBot) (t : ℚ)
    (ts : List ℚ) :
    runAlerts delivery bot (t :: ts) =
      ((runAlerts delivery (send_emergency_alert bot t delivery).1 ts).1,
        ((send_emergency_alert bot t delivery).2.1,
          (send_emergency_alert bot t delivery).2.2) ::
          (runAlerts delivery (send_emergency_alert bot t delivery).1 ts).2) :=
  rfl

/-- Within one rate-limit window (no call triggers a reset) with an
always-succeeding delivery, the i-th call is `sent` to every recipient
while the budget lasts and `rateLimited` with no contact afterwards. -/
lemma runAlerts_spec (delivery : ℕ → Bool) (ts : List ℚ) :
    ∀ bot : TelegramBot,
      (∀ t ∈ ts, t - bot.last_reset_time ≤ bot.reset_interval) →
      bot.enabled = true → bot.chat_ids ≠ [] →
      (∀ c ∈ bot.chat_ids, delivery c = true) →
      (runAlerts delivery bot ts).2 =
        (List.range ts.length).map
          (fun i =>
            if bot.alert_count + i < bot.max_alerts
            then (AlertOutcome.sent, bot.chat_ids)
            else (AlertOutcome.rateLimited, ([] : List ℕ))) := by
  induction ts with
  | nil => intro bot _ _ _ _; rfl
  | cons t ts ih =>
    intro bot hw hen hne hd
    rw [runAlerts_cons, List.length_cons, List.range_succ_eq_map,
      List.map_cons, List.map_map]
    by_cases hc : bot.alert_count < bot.max_alerts
    · rw [alert_step_in_window bot t delivery (hw t (by simp)) hc hen hd hne]
      have htl := ih { bot with alert_count := bot.alert_count + 1 }
        (fun u hu => hw u (by simp [hu])) hen hne hd
      simp only [htl]
      have hfun :
          ((fun i =>
              if bot.alert_count + i < bot.max_alerts
              then (AlertOutcome.sent, bot.chat_ids)
              else (AlertOutcome.rateLimited, ([] : List ℕ))) ∘ Nat.succ) =
            fun i =>
              if bot.alert_count + 1 + i < bot.max_alerts
              then (AlertOutcome.sent, bot.chat_ids)
              else (AlertOutcome.rateLimited, ([] : List ℕ)) := by
        funext i
        simp only [Function.comp, Nat.succ_eq_add_one]
        have h2 : bot.alert_count + (i + 1) = bot.alert_count + 1 + i := by
          omega
        rw [h2]
      rw [hfun]
      simp [hc]
    · rw [alert_step_limited bot t delivery (hw t (by simp))
        (not_lt.mp hc)]
      have htl := ih bot (fun u hu => hw u (by simp [hu])) hen hne hd
      simp only [htl]
      have hfun :
          ((fun i =>
              if bot.alert_count + i < bot.max_alerts
              then (AlertOutcome.sent, bot.chat_ids)
              else (AlertOutcome.rateLimited, ([] : List ℕ))) ∘ Nat.succ) =
            fun i =>
              if bot.alert_count + i < bot.max_alerts
              then (AlertOutcome.sent, bot.chat_ids)
              else (AlertOutcome.rateLimited, ([] : List ℕ)) := by
        funext i
        simp only [Function.comp, Nat.succ_eq_add_one]
        rw [if_neg (by omega), if_neg (by omega)]
      rw [hfun]
      simp [hc]

/-- C2: with `max_alerts = 5` and a 300-second window, seven
threshold-crossing calls within 10 seconds of window start (no prior
alerts) against an always-succeeding Notifier yield exactly five `sent`
outcomes followed by two `rateLimited` outcomes, and the rate-limited
calls contact no recipient at all. -/
theorem seven_calls_five_sent_two_limited (t0 : ℚ) (ts : List ℚ)
    (cs : List ℕ) (hcs : cs ≠ []) (hlen : ts.length = 7)
    (hts : ∀ t ∈ ts, t - t0 ≤ 10) :
    (runAlerts (fun _ => true) (mkBot cs t0) ts).2 =
      [(AlertOutcome.sent, cs), (AlertOutcome.sent, cs),
       (AlertOutcome.sent, cs), (AlertOutcome.sent, cs),
       (AlertOutcome.sent, cs), (AlertOutcome.rateLimited, []),
       (AlertOutcome.rateLimited, [])] := by
  have h := runAlerts_spec (fun _ => true) ts (mkBot cs t0)
    (by intro t ht; have := hts t ht; simp only [mkBot]; linarith)
    (by simp [mkBot, hcs]) (by simp [mkBot, hcs]) (by intro c _; rfl)
  rw [h, hlen]
  norm_num [mkBot, List.range_succ]

/-- Witness for C2: one recipient, calls at seconds 1 through 7. -/
theorem seven_calls_five_sent_two_limited_witness :
    ([0] : List ℕ) ≠ [] ∧ ([1, 2, 3, 4, 5, 6, 7] : List ℚ).length = 7 ∧
    (∀ t ∈ ([1, 2, 3, 4, 5, 6, 7] : List ℚ), t - 0 ≤ 10) ∧
    (runAlerts (fun _ => true) (mkBot [0] 0) [1, 2, 3, 4, 5, 6, 7]).2 =
      [(AlertOutcome.sent, [0]), (AlertOutcome.sent, [0]),
       (AlertOutcome.sent, [0]), (AlertOutcome.sent, [0]),
       (AlertOutcome.sent, [0]), (AlertOutcome.rateLimited, []),
       (AlertOutcome.rateLimited, [])] :=
  ⟨by decide, rfl, by intro t ht; fin_cases ht <;> norm_num,
    seven_calls_five_sent_two_limited 0 [1, 2, 3, 4, 5, 6, 7] [0]
      (by decide) rfl (by intro t ht; fin_cases ht <;> norm_num)⟩

/-- C5: when the elapsed time since `last_reset_time` exceeds the
300-second window at the moment of a call, the counter is reset (count 0,
window start moved to now) before the `count >= max_alerts` check, so the
call is never rate-limited by alerts from the previous window. -/
theorem window_reset_before_limit_check (bot : TelegramBot) (now : ℚ)
    (delivery : ℕ → Bool) (hmax : 0 < bot.max_alerts)
    (hcross : bot.reset_interval < now - bot.last_reset_time) :
    reset_alert_counter_if_needed bot now =
      { bot with alert_count := 0, last_reset_time := now } ∧
    (send_emergency_alert bot now delivery).2.1 ≠ AlertOutcome.rateLimited ∧
    (send_emergency_alert bot now delivery).1.last_reset_time = now := by
  have hr : reset_alert_counter_if_needed bot now =
      { bot with alert_count := 0, last_reset_time := now } := if_pos hcross
  refine ⟨hr, ?_, ?_⟩ <;>
  · unfold send_emergency_alert
    rw [hr]
    rw [if_neg (by simp; omega)]
    split <;> split <;> simp

/-- Witness for C5: a bot created at time 0 with one prior window's worth
of alerts, called at time 400. -/
theorem window_reset_before_limit_check_witness :
    0 < ({ mkBot [0] 0 with alert_count := 5 } : TelegramBot).max_alerts ∧
    ({ mkBot [0] 0 with alert_count := 5 } : TelegramBot).reset_interval <
      400 - ({ mkBot [0] 0 with alert_count := 5 } :
        TelegramBot).last_reset_time ∧
    (reset_alert_counter_if_needed { mkBot [0] 0 with alert_count := 5 }
        400 =
      { ({ mkBot [0] 0 with alert_count := 5 } : TelegramBot) with
          alert_count := 0, last_reset_time := 400 } ∧
    (send_emergency_alert { mkBot [0] 0 with alert_count := 5 } 400
        (fun _ => true)).2.1 ≠ AlertOutcome.rateLimited ∧
    (send_emergency_alert { mkBot [0] 0 with alert_count := 5 } 400
        (fun _ => true)).1.last_reset_time = 400) :=
  ⟨by norm_num [mkBot], by norm_num [mkBot],
    window_reset_before_limit_check { mkBot [0] 0 with alert_count := 5 }
      400 (fun _ => true) (by norm_num [mkBot]) (by norm_num [mkBot])⟩

/-- C6: a non-rate-limited attempt fans out to every configured
recipient; the outcome is `sent` iff delivery succeeded for at least one
recipient; the window count increments exactly on `sent`, and on `failed`
(all recipients failed) it is unchanged. -/
theorem fanout_at_least_one_and_budget (bot : TelegramBot) (now : ℚ)
    (delivery : ℕ → Bool) (hen : bot.enabled = true)
    (hnl : (send_emergency_alert bot now delivery).2.1 ≠
      AlertOutcome.rateLimited) :
    (send_emergency_alert bot now delivery).2.2 = bot.chat_ids ∧
    ((send_emergency_alert bot now delivery).2.1 = AlertOutcome.sent ↔
      ∃ c ∈ bot.chat_ids, delivery c = true) ∧
    ((send_emergency_alert bot now delivery).2.1 = AlertOutcome.sent →
      (send_emergency_alert bot now delivery).1.alert_count =
        (reset_alert_counter_if_needed bot now).alert_count + 1) ∧
    ((send_emergency_alert bot now delivery).2.1 = AlertOutcome.failed →
      (send_emergency_alert bot now delivery).1.alert_count =
        (reset_alert_counter_if_needed bot now).alert_count) := by
  have hben : (reset_alert_counter_if_needed bot now).enabled = true := by
    rw [reset_enabled]; exact hen
  have hbc : (reset_alert_counter_if_needed bot now).chat_ids =
      bot.chat_ids := reset_chat_ids bot now
  unfold send_emergency_alert at hnl ⊢
  by_cases hl : (reset_alert_counter_if_needed bot now).max_alerts ≤
      (reset_alert_counter_if_needed bot now).alert_count
  · rw [if_pos hl] at hnl
    exact absurd rfl hnl
  · rw [if_neg hl] at hnl ⊢
    rw [if_pos hben]
    have hiff := send_message_iff (reset_alert_counter_if_needed bot now)
      delivery hben
    rw [hbc] at hiff
    by_cases hs : send_message (reset_alert_counter_if_needed bot now)
        delivery = true
    · rw [if_pos hs]
      refine ⟨hbc, ?_, ?_, ?_⟩
      · simpa using hiff.mp hs
      · intro _; rfl
      · intro hco; simp at hco
    · rw [if_neg hs]
      refine ⟨hbc, ?_, ?_, ?_⟩
      · constructor
        · intro hco; simp at hco
        · intro hex; exact absurd (hiff.mpr hex) hs
      · intro hco; simp at hco
      · intro _; rfl

/-- Witness for C6: one recipient, successful delivery, call at time 1
after construction at time 0. -/
theorem fanout_at_least_one_and_budget_witness :
    (mkBot [0] 0).enabled = true ∧
    (send_emergency_alert (mkBot [0] 0) 1 (fun _ => true)).2.1 ≠
      AlertOutcome.rateLimited ∧
    ((send_emergency_alert (mkBot [0] 0) 1 (fun _ => true)).2.2 =
        (mkBot [0] 0).chat_ids ∧
    ((send_emergency_alert (mkBot [0] 0) 1 (fun _ => true)).2.1 =
        AlertOutcome.sent ↔
      ∃ c ∈ (mkBot [0] 0).chat_ids, (fun _ : ℕ => true) c = true) ∧
    ((send_emergency_alert (mkBot [0] 0) 1 (fun _ => true)).2.1 =
        AlertOutcome.sent →
      (send_emergency_alert (mkBot [0] 0) 1 (fun _ => true)).1.alert_count =
        (reset_alert_counter_if_needed (mkBot [0] 0) 1).alert_count + 1) ∧
    ((send_emergency_alert (mkBot [0] 0) 1 (fun _ => true)).2.1 =
        AlertOutcome.failed →
      (send_emergency_alert (mkBot [0] 0) 1 (fun _ => true)).1.alert_count =
        (reset_alert_counter_if_needed (mkBot [0] 0) 1).alert_count)) :=
  ⟨rfl,
    by
      rw [alert_step_in_window (mkBot [0] 0) 1 (fun _ => true)
        (by norm_num [mkBot]) (by norm_num [mkBot]) rfl (fun c _ => rfl)
        (by simp [mkBot])]
      simp,
    fanout_at_least_one_and_budget (mkBot [0] 0) 1 (fun _ => true) rfl
      (by
        rw [alert_step_in_window (mkBot [0] 0) 1 (fun _ => true)
          (by norm_num [mkBot]) (by norm_num [mkBot]) rfl (fun c _ => rfl)
          (by simp [mkBot])]
        simp)⟩

/-! ## `update_info`: derived severity classification

Embeds the alert block of `DrowsinessDetector.update_info`.  Python's
`round(x, 2)` (round to 2 decimal places, ties to even) is modelled
exactly on rationals.  The HTML paragraph stored in `alert_text` by each
branch is abbreviated to its label ("Prolonged Yawn" / "EMERGENCY" /
"DANGER"); the chain else-retains the previous `alert_text`. -/

/-- Round to the nearest integer, ties to the even integer (Python's
`round` with no corruption from binary floats). -/
def roundHalfEven (q : ℚ) : ℤ :=
  if q - ⌊q⌋ < 1/2 then ⌊q⌋
  else if 1/2 < q - ⌊q⌋ then ⌊q⌋ + 1
  else if ⌊q⌋ % 2 = 0 then ⌊q⌋ else ⌊q⌋ + 1

/-- Python's `round(q, 2)`. -/
def pyRound2 (q : ℚ) : ℚ := (roundHalfEven (q * 100) : ℚ) / 100

/-- The alert/severity block of `update_info`: returns the new
`alert_text` label and the `emergency_triggered` flag.  Source order:
`if round(yawn_duration,2) > 3.0` / `elif round(microsleeps,2) >
emergency_threshold` (sets `emergency_triggered = True`) / `elif
round(microsleeps,2) > 2.0` / `elif microsleeps < 1.0 and yawn_duration
< 2.0` (clear) / else keep the previous `alert_text`. -/
def update_info (s : DetectorState) (emergency_threshold : ℚ)
    (alert_text : String) : String × Bool :=
  if 3 < pyRound2 s.yawn_duration then ("Prolonged Yawn", false)
  else if emergency_threshold < pyRound2 s.microsleeps then
    ("EMERGENCY", true)
  else if 2 < pyRound2 s.microsleeps then ("DANGER", false)
  else if s.microsleeps < 1 ∧ s.yawn_duration < 2 then ("", false)
  else (alert_text, false)

/-! ## The bounded frame queue (`capture_frames` / `process_frames`)

`frame_queue = queue.Queue(maxsize=2)`; the capture loop enqueues only
when `qsize() < 2` (line 511), otherwise the freshly read frame is
dropped and capture continues; the processing loop dequeues one frame at
a time.  Frames are opaque naturals. -/

/-- The capture side's enqueue policy:
`if self.frame_queue.qsize() < 2: self.frame_queue.put(frame)`. -/
def captureStep (q : List ℕ) (f : ℕ) : List ℕ :=
  if q.length < 2 then q ++ [f] else q

/-- Queue contents reachable by interleaving capture enqueues and
processing dequeues from the initially empty queue. -/
inductive QueueReachable : List ℕ → Prop
  | init : QueueReachable []
  | capture (q : List ℕ) (f : ℕ) :
      QueueReachable q → QueueReachable (captureStep q f)
  | process (f : ℕ) (q : List ℕ) :
      QueueReachable (f :: q) → QueueReachable q

/-! ## Per-frame classification (`predict_eye`, `predict_yawn`,
`process_frames`)

The YOLO call on one region of interest is an oracle outcome: the region
may be empty (`size == 0` guard), the call may raise (caught and logged
in the source), it may return no boxes, or it returns a top box with a
class id and confidence. -/

/-- Outcome of one YOLO inference on a region of interest. -/
inductive DetOutcome where
  | emptyFrame
  | failure
  | noBoxes
  | det (classId : ℕ) (conf : ℚ)
  deriving Repr, DecidableEq

/-- `DrowsinessDetector.predict_eye`: on an empty region, an exception or
no boxes the previous `eye_state` is returned unchanged; otherwise class
1 with confidence > 0.3 yields `"Close Eye"`, class 0 with confidence >
0.25 yields `"Open Eye"`, anything else keeps the previous state. -/
def predict_eye (o : DetOutcome) (eye_state : String) : String :=
  match o with
  | .emptyFrame => eye_state
  | .failure => eye_state
  | .noBoxes => eye_state
  | .det cid conf =>
    if cid = 1 ∧ 3/10 < conf then "Close Eye"
    else if cid = 0 ∧ 1/4 < conf then "Open Eye"
    else eye_state

/-- `DrowsinessDetector.predict_yawn`: same shape; class 0 with
confidence > 0.4 yields `"Yawn"`, class 1 with confidence > 0.3 yields
`"No Yawn"`, anything else (empty region, exception, no boxes, low
confidence) keeps the previous `yawn_state`. -/
def predict_yawn (o : DetOutcome) (yawn_state : String) : String :=
  match o with
  | .emptyFrame => yawn_state
  | .failure => yawn_state
  | .noBoxes => yawn_state
  | .det cid conf =>
    if cid = 0 ∧ 2/5 < conf then "Yawn"
    else if cid = 1 ∧ 3/10 < conf then "No Yawn"
    else yawn_state

/-- Perception data for one frame in which a face was found: the
landmark points extracted for `points_ids` and the YOLO outcomes on the
two eye regions and the mouth region. -/
structure FaceData where
  points : List (ℤ × ℤ)
  leftEye : DetOutcome
  rightEye : DetOutcome
  mouth : DetOutcome

/-- Per-frame perception input: `none` when
`results.multi_face_landmarks` is empty. -/
structure FrameInput where
  face : Option FaceData

/-- One iteration of the `process_frames` loop body on a dequeued frame:
if no face landmarks were detected nothing happens; with a face, the
extracted points must number exactly 7 (`if len(points) == 7:`), the
three classifications are updated by the predictors, and the drowsiness
logic block runs. -/
def processFrame (s : DetectorState) (inp : FrameInput) : DetectorState :=
  match inp.face with
  | none => s
  | some f =>
    if f.points.length = 7 then
      drowsinessStep
        { s with left_eye_state := predict_eye f.leftEye s.left_eye_state
                 right_eye_state := predict_eye f.rightEye s.right_eye_state
                 yawn_state := predict_yawn f.mouth s.yawn_state }
    else s

/-! ## Severity classification (C8) -/

/-- C8 counterexample: with `microsleeps = 5`, `yawn_duration = 4` and
the default threshold 4, the continuous-closure accumulator exceeds the
emergency threshold on this frame, yet the source's `elif` chain takes
the prolonged-yawn branch first and `emergency_triggered` stays `False`:
the emergency condition does NOT hold on frames where
`yawn_duration > 3.0` simultaneously. -/
theorem emergency_suppressed_by_prolonged_yawn :
    ({ initState with microsleeps := 5, yawn_duration := 4 } :
        DetectorState).microsleeps > 4 ∧
    pyRound2 ({ initState with microsleeps := 5, yawn_duration := 4 } :
        DetectorState).microsleeps > 4 ∧
    (update_info { initState with microsleeps := 5, yawn_duration := 4 }
        4 "").2 = false := by
  refine ⟨by norm_num, ?_, ?_⟩ <;>
    norm_num [update_info, pyRound2, roundHalfEven, initState]

/-- C8 amended: the severity chain is sequential: "prolonged yawn" when
`round(yawn_duration, 2) > 3.0`; otherwise "emergency" — and the
emergency notification flag — exactly when `round(microsleeps, 2) >
emergency_threshold`; otherwise "danger" when `round(microsleeps, 2) >
2.0`; the display clears only when `microsleeps < 1` and
`yawn_duration < 2`, else the previous text is retained.  In particular
the emergency trigger is a level condition re-evaluated on the frame but
it is suppressed whenever a prolonged yawn is displayed simultaneously. -/
theorem severity_classification (s : DetectorState) (th : ℚ)
    (prev : String) :
    ((update_info s th prev).2 = true ↔
      pyRound2 s.yawn_duration ≤ 3 ∧ th < pyRound2 s.microsleeps) ∧
    (3 < pyRound2 s.yawn_duration →
      (update_info s th prev).1 = "Prolonged Yawn") ∧
    (pyRound2 s.yawn_duration ≤ 3 ∧ th < pyRound2 s.microsleeps →
      (update_info s th prev).1 = "EMERGENCY") ∧
    (pyRound2 s.yawn_duration ≤ 3 ∧ pyRound2 s.microsleeps ≤ th ∧
        2 < pyRound2 s.microsleeps →
      (update_info s th prev).1 = "DANGER") ∧
    (pyRound2 s.yawn_duration ≤ 3 ∧ pyRound2 s.microsleeps ≤ th ∧
        pyRound2 s.microsleeps ≤ 2 ∧ s.microsleeps < 1 ∧
        s.yawn_duration < 2 →
      (update_info s th prev).1 = "") ∧
    (pyRound2 s.yawn_duration ≤ 3 ∧ pyRound2 s.microsleeps ≤ th ∧
        pyRound2 s.microsleeps ≤ 2 ∧
        ¬(s.microsleeps < 1 ∧ s.yawn_duration < 2) →
      (update_info s th prev).1 = prev) := by
  unfold update_info
  split_ifs with h1 h2 h3 h4 <;>
    refine ⟨?_, ?_, ?_, ?_, ?_, ?_⟩ <;>
      simp_all

/-- Witness for C8's amended claim at the initial state with
threshold 4. -/
theorem severity_classification_witness :
    ((update_info initState 4 "x").2 = true ↔
      pyRound2 initState.yawn_duration ≤ 3 ∧
        4 < pyRound2 initState.microsleeps) ∧
    (3 < pyRound2 initState.yawn_duration →
      (update_info initState 4 "x").1 = "Prolonged Yawn") ∧
    (pyRound2 initState.yawn_duration ≤ 3 ∧
        4 < pyRound2 initState.microsleeps →
      (update_info initState 4 "x").1 = "EMERGENCY") ∧
    (pyRound2 initState.yawn_duration ≤ 3 ∧
        pyRound2 initState.microsleeps ≤ 4 ∧
        2 < pyRound2 initState.microsleeps →
      (update_info initState 4 "x").1 = "DANGER") ∧
    (pyRound2 initState.yawn_duration ≤ 3 ∧
        pyRound2 initState.microsleeps ≤ 4 ∧
        pyRound2 initState.microsleeps ≤ 2 ∧ initState.microsleeps < 1 ∧
        initState.yawn_duration < 2 →
      (update_info initState 4 "x").1 = "") ∧
    (pyRound2 initState.yawn_duration ≤ 3 ∧
        pyRound2 initState.microsleeps ≤ 4 ∧
        pyRound2 initState.microsleeps ≤ 2 ∧
        ¬(initState.microsleeps < 1 ∧ initState.yawn_duration < 2) →
      (update_info initState 4 "x").1 = "x") :=
  severity_classification initState 4 "x"

/-! ## Bounded queue (C9) -/

/-- C9: every reachable queue content holds at most 2 frames; a capture
enqueue is always enabled (never blocks) and, at capacity, drops the new
frame leaving the queue unchanged; the enqueue result is again
reachable. -/
theorem queue_bounded_and_capture_nonblocking (q : List ℕ)
    (h : QueueReachable q) :
    q.length ≤ 2 ∧
    ∀ f : ℕ, (2 ≤ q.length → captureStep q f = q) ∧
      QueueReachable (captureStep q f) := by
  constructor
  · induction h with
    | init => simp
    | capture q f hq ih =>
      unfold captureStep
      split
      · simp only [List.length_append, List.length_cons, List.length_nil]
        omega
      · exact ih
    | process f q hq ih =>
      simp only [List.length_cons] at ih
      omega
  · intro f
    constructor
    · intro hfull
      unfold captureStep
      rw [if_neg (by omega)]
    · exact QueueReachable.capture q f h

/-- Witness for C9: the empty initial queue. -/
theorem queue_bounded_and_capture_nonblocking_witness :
    QueueReachable [] ∧
    (([] : List ℕ).length ≤ 2 ∧
      ∀ f : ℕ, (2 ≤ ([] : List ℕ).length → captureStep [] f = []) ∧
        QueueReachable (captureStep [] f)) :=
  ⟨QueueReachable.init,
    queue_bounded_and_capture_nonblocking [] QueueReachable.init⟩

/-! ## Frames without usable landmarks (C10) -/

/-- C10: a processed frame in which no face landmarks were detected, or
whose extracted point list has fewer than the 7 required points, leaves
the entire drowsiness state — counters, accumulators and latches —
exactly unchanged: no accumulation and no decay. -/
theorem no_landmarks_leaves_state_unchanged (s : DetectorState)
    (inp : FrameInput)
    (h : inp.face = none ∨
      ∃ f, inp.face = some f ∧ f.points.length < 7) :
    processFrame s inp = s := by
  unfold processFrame
  rcases h with h | ⟨f, hf, hlen⟩
  · rw [h]
  · rw [hf]
    simp only
    rw [if_neg (by omega)]

/-- Witness for C10: a frame with no detected face. -/
theorem no_landmarks_leaves_state_unchanged_witness :
    ((⟨none⟩ : FrameInput).face = none ∨
      ∃ f, (⟨none⟩ : FrameInput).face = some f ∧ f.points.length < 7) ∧
    processFrame initState ⟨none⟩ = initState :=
  ⟨Or.inl rfl,
    no_landmarks_leaves_state_unchanged initState ⟨none⟩ (Or.inl rfl)⟩

/-! ## Classifier failure policy (C7) -/

/-- C7 counterexample: a frame whose three YOLO calls all raise, at a
state whose retained classifications say both eyes closed, does NOT
leave the duration accumulators untouched: `predict_eye` returns the
previous state on an exception, and the drowsiness logic still runs, so
`microsleeps` advances from 1 to 1 + 1/30 on the failed frame — there is
no skip-frame policy and no "Unknown" classification. -/
theorem classifier_failure_still_updates_accumulators :
    (processFrame
        { initState with
            left_eye_state := "Close Eye"
            right_eye_state := "Close Eye"
            left_eye_still_closed := true
            right_eye_still_closed := true
            microsleeps := 1 }
        ⟨some ⟨[(0, 0), (0, 0), (0, 0), (0, 0), (0, 0), (0, 0), (0, 0)],
          DetOutcome.failure, DetOutcome.failure,
          DetOutcome.failure⟩⟩).microsleeps ≠
      ({ initState with
          left_eye_state := "Close Eye"
          right_eye_state := "Close Eye"
          left_eye_still_closed := true
          right_eye_still_closed := true
          microsleeps := 1 } : DetectorState).microsleeps := by
  norm_num [processFrame, predict_eye, predict_yawn, drowsinessStep,
    eyeLogic, yawnLogic, initState]
  rw [if_neg (by decide)]
  norm_num

/-- C7 amended: on a per-frame classifier failure (exception, caught and
logged, or no detection boxes) each classification retains its previous
value for that frame, the failure is not propagated, and the drowsiness
logic still runs with the retained classifications — the accumulators
advance or decay exactly as they would on a frame classified like the
previous one. -/
theorem classifier_failure_retains_previous_classification
    (s : DetectorState) (pts : List (ℤ × ℤ)) (h : pts.length = 7) :
    (∀ (o : DetOutcome) (st : String),
      o = DetOutcome.failure ∨ o = DetOutcome.noBoxes →
        predict_eye o st = st ∧ predict_yawn o st = st) ∧
    processFrame s ⟨some ⟨pts, DetOutcome.failure, DetOutcome.failure,
        DetOutcome.failure⟩⟩ = drowsinessStep s := by
  constructor
  · rintro o st (rfl | rfl) <;> exact ⟨rfl, rfl⟩
  · unfold processFrame
    simp only [predict_eye, predict_yawn]
    rw [if_pos h]

/-- Witness for C7's amended claim: seven dummy landmark points. -/
theorem classifier_failure_retains_previous_classification_witness :
    ([(0, 0), (0, 0), (0, 0), (0, 0), (0, 0), (0, 0), (0, 0)] :
        List (ℤ × ℤ)).length = 7 ∧
    ((∀ (o : DetOutcome) (st : String),
      o = DetOutcome.failure ∨ o = DetOutcome.noBoxes →
        predict_eye o st = st ∧ predict_yawn o st = st) ∧
    processFrame initState
        ⟨some ⟨[(0, 0), (0, 0), (0, 0), (0, 0), (0, 0), (0, 0), (0, 0)],
          DetOutcome.failure, DetOutcome.failure, DetOutcome.failure⟩⟩ =
      drowsinessStep initState) :=
  ⟨rfl,
    classifier_failure_retains_previous_classification initState
      [(0, 0), (0, 0), (0, 0), (0, 0), (0, 0), (0, 0), (0, 0)] rfl⟩

end Drowsiness
